import Mathlib

/-!
Shallow embedding of the cart / order core of the `ecommerce_backend`
repository (`src/models/Cart.js`, `src/controllers/orderController.js`,
and the Order schema).

Modelling conventions:
* Monetary amounts and JS numbers holding prices are rationals (`ℚ`);
  quantities are integers (`ℤ`).  JS `Number.toFixed(2)` followed by
  `parseFloat` is `round2`.
* Mongoose `ObjectId`s are `Nat`; their `toString` is decimal rendering.
* Fallible operations return `Except Failure _`; an `AppError(msg, code)`
  is `Failure.app ⟨msg, code⟩`, and an uncaught JS `ReferenceError`
  (which the framework surfaces as a 500, not an `AppError`) is
  `Failure.referenceError`.
* `save()` / `Model.create()` run the mongoose schema validators; these
  are modelled by `ValidCart` / `ValidOrder` (enum membership, ranges,
  required fields).  The email-format regex and string trimming/casing
  transforms of the schemas are not modelled; inputs are taken already
  canonical.
-/

namespace ECom

attribute [local semireducible] Rat.add Rat.mul Rat.sub Rat.inv

/-- Rounding to 2 decimal places, as done by `toFixed(2)` + `parseFloat`
in `calculateTotals` (`src/models/Cart.js` lines 180-181). -/
def round2 (q : ℚ) : ℚ := (round (q * 100) : ℚ) / 100

/-- JS `String.prototype.toLowerCase`, written as a character map over
the string's characters. -/
def strToLower (s : String) : String := ⟨s.data.map Char.toLower⟩

/-- An `AppError` from `src/utils/AppError`: a message plus an HTTP status
code. -/
structure Err where
  message : String
  statusCode : Nat
deriving Repr, DecidableEq

/-- Outcome of a failed operation: either a typed `AppError`, or an
uncaught JS `ReferenceError` (used by `removeItem`, whose not-found branch
calls an identifier `next` that is not in scope). -/
inductive Failure where
  | app : Err → Failure
  | referenceError : String → Failure
deriving Repr, DecidableEq

/-- The nested `variant` object of a cart line (`src/models/Cart.js`
lines 37-64).  All fields are optional; an absent variant behaves as the
empty object, and `JSON.stringify` equality of two variants coincides
with structural equality of this record. -/
structure Variant where
  name : Option String := none
  sku : Option String := none
  color : Option String := none
  size : Option String := none
  price : Option ℚ := none
  stock : Option ℚ := none
deriving Repr, DecidableEq

/-- One cart line (`cartItemSchema`).  The schema sets `_id: false`, so a
line carries no own id. -/
structure CartItem where
  product : Nat
  name : String
  quantity : Int
  price : ℚ
  image : String := ""
  variant : Variant := {}
deriving Repr, DecidableEq

/-- The `itemData` argument of `addItem` as supplied by the controller. -/
structure ItemData where
  product : Nat
  name : String
  quantity : Int
  price : ℚ
  image : String := ""
  variant : Option Variant := none
deriving Repr, DecidableEq

/-- The Cart document (`cartSchema`).  `lastUpdated` / `expiresAt`
timestamps are irrelevant to the verified claims and omitted. -/
structure Cart where
  user : Option Nat := none
  isGuest : Bool := false
  guestEmail : Option String := none
  items : List CartItem := []
  paymentMethod : Option String := none
  subtotal : ℚ := 0
  shippingCost : ℚ := 0
  totalAmount : ℚ := 0
  isConverted : Bool := false
deriving Repr, DecidableEq

/-- Valid payment methods (cart and order schema enum). -/
def paymentMethodEnum : List String := ["cash", "paypal", "stripe", "card"]

/-- Schema validation for one cart line: quantity an integer between 1
and 100, price non-negative. -/
def ValidCartItem (it : CartItem) : Prop :=
  1 ≤ it.quantity ∧ it.quantity ≤ 100 ∧ 0 ≤ it.price

instance (it : CartItem) : Decidable (ValidCartItem it) := by
  unfold ValidCartItem; infer_instance

/-- Schema validation for the cart document, run by `save()`: at most 50
items, each item valid, non-negative amounts, guest carts carry an email,
payment method in the enum. -/
def ValidCart (c : Cart) : Prop :=
  c.items.length ≤ 50 ∧ (∀ it ∈ c.items, ValidCartItem it) ∧
  0 ≤ c.subtotal ∧ 0 ≤ c.shippingCost ∧ 0 ≤ c.totalAmount ∧
  (c.isGuest = true → c.guestEmail.isSome) ∧
  (∀ m, c.paymentMethod = some m → m ∈ paymentMethodEnum)

instance (c : Cart) : Decidable (ValidCart c) := by
  unfold ValidCart; infer_instance

/-- Cart persistence (`this.save()`): runs schema validation; a mongoose
`ValidationError` is surfaced by the framework as a 500. -/
def saveCart (c : Cart) : Except Failure Cart :=
  if ValidCart c then .ok c else .error (.app ⟨"Cart validation failed", 500⟩)

/-- Sum of price times quantity over the cart lines, as accumulated by the
`forEach` loop of `calculateTotals`. -/
def itemsSubtotal (items : List CartItem) : ℚ :=
  items.foldl (fun acc it => acc + it.price * (it.quantity : ℚ)) 0

/-- Method `calculateTotals` (`src/models/Cart.js` lines 167-188): throws
if any line has a falsy (zero) price or quantity, otherwise sets
`subtotal` to the 2-decimal rounding of the line sum, `totalAmount` to
the 2-decimal rounding of subtotal plus shipping, and saves. -/
def calculateTotals (c : Cart) : Except Failure Cart :=
  if c.items.any (fun it => it.price == 0 || it.quantity == 0) then
    .error (.app ⟨"Error calculating cart totals: Invalid item in cart", 500⟩)
  else
    let st := round2 (itemsSubtotal c.items)
    saveCart { c with
      subtotal := st
      totalAmount := round2 (st + c.shippingCost) }

/-- JS `Array.prototype.findIndex`, returning `none` instead of -1. -/
def findIndex (p : α → Bool) : List α → Option Nat
  | [] => none
  | a :: tl => if p a then some 0 else (findIndex p tl).map (· + 1)

/-- In-place update of the element at an index (mongoose document array
mutation). -/
def modifyAt (l : List α) (i : Nat) (f : α → α) : List α :=
  match l, i with
  | [], _ => []
  | a :: tl, 0 => f a :: tl
  | a :: tl, n + 1 => a :: modifyAt tl n f

/-- The duplicate-line test of `addItem` (lines 219-222): same product id
and `JSON.stringify`-equal variant, where an absent incoming variant is
compared as the empty object. -/
def sameLine (it : CartItem) (d : ItemData) : Bool :=
  it.product == d.product && it.variant == d.variant.getD {}

/-- The cart line pushed by `addItem` when no existing line matches. -/
def ItemData.toCartItem (d : ItemData) : CartItem :=
  { product := d.product, name := d.name, quantity := d.quantity,
    price := d.price, image := d.image, variant := d.variant.getD {} }

/-- Method `addItem` (`src/models/Cart.js` lines 214-234): rejects
converted carts; merges into the first line with the same product and
variant, else appends; then recomputes totals. -/
def addItem (c : Cart) (d : ItemData) : Except Failure Cart :=
  if c.isConverted then
    .error (.app ⟨"Cannot add items to a converted cart", 400⟩)
  else
    let items :=
      match findIndex (fun it => sameLine it d) c.items with
      | some i => modifyAt c.items i
          (fun it => { it with quantity := it.quantity + d.quantity })
      | none => c.items ++ [d.toCartItem]
    calculateTotals { c with items := items }

/-- The id-matching test of `removeItem` / `updateItemQuantity`.  Cart
lines have no `_id` (schema `_id: false`) and variants have no `_id`
either, so of the disjuncts in the source only the comparison against the
product id can ever hold. -/
def matchesItemId (it : CartItem) (targetId : String) : Bool :=
  toString it.product == targetId

/-- Method `removeItem` (`src/models/Cart.js` lines 237-260): rejects
converted carts; on a miss the source executes
`return next(new AppError('Item not found in cart', 404))` but `next` is
not a parameter of this method, so the call raises
`ReferenceError: next is not defined` before any mutation; on a hit the
line is spliced out and totals recomputed. -/
def removeItem (c : Cart) (itemId : String) : Except Failure Cart :=
  if c.isConverted then
    .error (.app ⟨"Cannot modify a converted cart", 400⟩)
  else
    match findIndex (fun it => matchesItemId it itemId) c.items with
    | none => .error (.referenceError "next is not defined")
    | some i => calculateTotals { c with items := c.items.eraseIdx i }

/-- Method `updateItemQuantity` (`src/models/Cart.js` lines 262-289):
rejects converted carts; misses fail with a 404 `AppError`; on a hit the
quantity is overwritten and totals recomputed. -/
def updateItemQuantity (c : Cart) (itemId : String) (newQuantity : Int) :
    Except Failure Cart :=
  if c.isConverted then
    .error (.app ⟨"Cannot modify a converted cart", 400⟩)
  else
    match findIndex (fun it => matchesItemId it itemId) c.items with
    | none => .error (.app ⟨"Item not found in cart", 404⟩)
    | some i =>
        calculateTotals { c with
          items := modifyAt c.items i (fun it => { it with quantity := newQuantity }) }

/-- One mutating cart operation, for stating the totals invariant over
operation sequences. -/
inductive CartOp where
  | add : ItemData → CartOp
  | remove : String → CartOp
  | update : String → Int → CartOp
deriving Repr, DecidableEq

/-- Apply one cart operation. -/
def applyOp (c : Cart) : CartOp → Except Failure Cart
  | .add d => addItem c d
  | .remove i => removeItem c i
  | .update i q => updateItemQuantity c i q

/-- Apply a sequence of cart operations, stopping at the first failure. -/
def applyOps (c : Cart) : List CartOp → Except Failure Cart
  | [] => .ok c
  | op :: rest => (applyOp c op).bind (fun c1 => applyOps c1 rest)

/-- The monetary invariant of claim C1. -/
def CartTotalsInvariant (c : Cart) : Prop :=
  c.subtotal = round2 (itemsSubtotal c.items) ∧
  c.totalAmount = round2 (c.subtotal + c.shippingCost)

/-- One order line (`orderItemSchema` in the Order model): product ref,
name, quantity (min 1), price, image.  The schema has no `variant` field,
so the `variant` copied by `convertToOrder` is stripped by strict mode. -/
structure OrderItem where
  product : Nat
  name : String
  quantity : Int
  price : ℚ
  image : String := ""
deriving Repr, DecidableEq

/-- Shipping address snapshot (`shippingAddressSchema`).  A missing
`notes` is defaulted to the empty string by the conversion. -/
structure ShippingAddress where
  fullName : String
  phone : String
  country : String
  city : String
  street : String
  postalCode : String
  notes : String := ""
deriving Repr, DecidableEq

/-- Payment details snapshot (`paymentDetailsSchema`). -/
structure PaymentDetails where
  provider : String
  paymentID : String
  payerEmail : Option String := none
  cardLast4 : String := "0000"
  receiptUrl : String := ""
deriving Repr, DecidableEq

/-- The raw `paymentDetails` argument of `convertToOrder`, before the
defaults of lines 335-341 of `src/models/Cart.js` are applied. -/
structure PaymentDetailsInput where
  paymentID : Option String := none
  payerEmail : Option String := none
  cardLast4 : Option String := none
  receiptUrl : Option String := none
deriving Repr, DecidableEq

/-- Valid order statuses (Order schema enum).  Note that `pending` is not
among them, although `convertToOrder` assigns it for cash payments. -/
def statusEnum : List String :=
  ["processing", "confirmed", "shipped", "delivered", "cancelled"]

/-- Valid payment statuses (Order schema enum). -/
def paymentStatusEnum : List String := ["pending", "paid", "failed"]

/-- The Order document (`orderSchema`).  Timestamps are modelled as
natural numbers (`Date.now()` values); fields irrelevant to the claims
(tracking number, invoice URL, refunds, soft-delete log) are omitted. -/
structure Order where
  user : Option Nat := none
  isGuest : Bool := false
  guestEmail : Option String := none
  guestName : Option String := none
  orderItems : List OrderItem := []
  shippingAddress : ShippingAddress
  paymentDetails : PaymentDetails
  paymentMethod : String
  paymentStatus : String := "pending"
  status : String := "processing"
  totalAmount : ℚ := 0
  isPaid : Bool := false
  paidAt : Option Nat := none
  isDelivered : Bool := false
  deliveredAt : Option Nat := none
  isCancelled : Bool := false
  cancelledAt : Option Nat := none
  notes : Option String := none
deriving Repr, DecidableEq

/-- Schema validation for the order document, run by `Order.create` and
`save()`: at least one line, positive line quantities, non-negative
total, enum membership for payment method, payment status and status,
and a guest email on guest orders. -/
def ValidOrder (o : Order) : Prop :=
  o.orderItems ≠ [] ∧ (∀ it ∈ o.orderItems, 1 ≤ it.quantity) ∧
  0 ≤ o.totalAmount ∧ o.paymentMethod ∈ paymentMethodEnum ∧
  o.paymentStatus ∈ paymentStatusEnum ∧ o.status ∈ statusEnum ∧
  (o.isGuest = true → o.guestEmail.isSome)

instance (o : Order) : Decidable (ValidOrder o) := by
  unfold ValidOrder; infer_instance

/-- Mongoose `Order.create`: schema validation, then the document. -/
def orderCreate (o : Order) : Except Failure Order :=
  if ValidOrder o then .ok o else .error (.app ⟨"Order validation failed", 500⟩)

/-- Order persistence (`order.save()`), same validation as creation. -/
def saveOrder (o : Order) : Except Failure Order :=
  if ValidOrder o then .ok o else .error (.app ⟨"Order validation failed", 500⟩)

/-- The `orderData` record built by `convertToOrder`
(`src/models/Cart.js` lines 314-360) from a cart whose guards passed.
`paymentStatus` is absent from the source record, so the schema default
`pending` applies.  The payer-email fallback reads `this.user.email`,
which on an unpopulated user reference is undefined, hence `none` for
user carts.  The cart schema has no `guestName` path, so the guest name
defaults to `Guest`. -/
def buildOrderData (c : Cart) (addr : ShippingAddress) (pm : String)
    (pd : PaymentDetailsInput) (now : Nat) : Order :=
  let base : Order :=
    { orderItems := c.items.map (fun it =>
        { product := it.product, name := it.name, quantity := it.quantity,
          price := it.price, image := it.image }),
      shippingAddress := addr,
      paymentMethod := pm,
      paymentDetails :=
        { provider := pm,
          paymentID := pd.paymentID.getD ("pay_" ++ toString now),
          payerEmail :=
            match pd.payerEmail with
            | some e => some e
            | none => if c.user.isSome then none else c.guestEmail,
          cardLast4 := pd.cardLast4.getD "0000",
          receiptUrl := pd.receiptUrl.getD "" },
      totalAmount := c.totalAmount,
      isPaid := pm ≠ "cash",
      paidAt := if pm ≠ "cash" then some now else none,
      isDelivered := false,
      status := if pm = "cash" then "pending" else "processing" }
  match c.user with
  | some u => { base with user := some u, isGuest := false }
  | none =>
      if c.isGuest then
        { base with guestEmail := c.guestEmail, isGuest := true,
                    guestName := some "Guest" }
      else base

/-- Method `convertToOrder` (`src/models/Cart.js` lines 292-367), run
against a store state: the cart and the list of existing orders.  The
returned pair is the persisted store state together with the outcome;
paths that throw leave the already-persisted state as it stands (the
totals recomputation saves the cart, and `Order.create` persists the
order, before the cart is marked converted). -/
def convertToOrderRun (c : Cart) (orders : List Order)
    (pd : PaymentDetailsInput) (shippingAddress : Option ShippingAddress)
    (paymentMethod : Option String) (now : Nat) :
    (Cart × List Order) × Except Failure Order :=
  if c.isConverted then
    ((c, orders), .error (.app ⟨"Cart has already been converted to an order", 400⟩))
  else if c.items.length = 0 then
    ((c, orders), .error (.app ⟨"Cannot convert empty cart to order", 400⟩))
  else
    match shippingAddress with
    | none => ((c, orders), .error (.app ⟨"Shipping address is required", 400⟩))
    | some addr =>
      match paymentMethod with
      | none => ((c, orders), .error (.app ⟨"Payment method is required", 400⟩))
      | some pm =>
        match (if c.totalAmount == 0 || c.subtotal == 0
               then calculateTotals c else .ok c) with
        | .error e => ((c, orders), .error e)
        | .ok c1 =>
          match orderCreate (buildOrderData c1 addr pm pd now) with
          | .error e => ((c1, orders), .error e)
          | .ok o =>
            match saveCart { c1 with isConverted := true } with
            | .error e => ((c1, orders ++ [o]), .error e)
            | .ok c2 => ((c2, orders ++ [o]), .ok o)

/-- The caller identity attached by the auth middleware: absent
(`req.user` undefined) or an authenticated user with an id and a role. -/
inductive Requester where
  | anon : Requester
  | auth : Nat → String → Requester
deriving Repr, DecidableEq

/-- A mongo filter over the orders collection as assembled by the
per-order controller reads: an id equality plus optional ownership
conditions. -/
structure OrderQuery where
  idEq : String
  userEq : Option Nat := none
  guestEmailEq : Option String := none
  isGuestEq : Option Bool := none
deriving Repr, DecidableEq

/-- Whether a stored order (keyed by its id) matches a filter. -/
def matchesQuery (q : OrderQuery) (e : String × Order) : Bool :=
  e.1 == q.idEq &&
  (match q.userEq with | none => true | some u => e.2.user == some u) &&
  (match q.guestEmailEq with | none => true | some g => e.2.guestEmail == some g) &&
  (match q.isGuestEq with | none => true | some b => e.2.isGuest == b)

/-- The access-control filter shared by `getMyOrderById` and
`cancelMyOrder` (`src/controllers/orderController.js` lines 279-293 and
321-339): admins query by id alone; authenticated non-admins add a
`user` equality; anonymous callers must supply a guest email, added
lowercased together with `isGuest: true`; otherwise a 400 error. -/
def buildAccessQuery (req : Requester) (suppliedGuestEmail : Option String)
    (orderId : String) (missingEmailMsg : String) :
    Except Failure OrderQuery :=
  match req with
  | .auth uid role =>
      if role = "admin" then .ok { idEq := orderId }
      else .ok { idEq := orderId, userEq := some uid }
  | .anon =>
      match suppliedGuestEmail with
      | some e => .ok { idEq := orderId, guestEmailEq := some (strToLower e),
                        isGuestEq := some true }
      | none => .error (.app ⟨missingEmailMsg, 400⟩)

/-- Controller `getMyOrderById` (`src/controllers/orderController.js`
lines 270-312): id-shape check, access-control filter, `findOne`, 404 on
a miss. -/
def getMyOrderById (db : List (String × Order)) (req : Requester)
    (guestEmailQuery : Option String) (orderId : String) :
    Except Failure Order :=
  if orderId.length ≠ 24 then
    .error (.app ⟨"Please provide a valid order ID.", 400⟩)
  else
    match buildAccessQuery req guestEmailQuery orderId
        "Please provide your email to view this order." with
    | .error f => .error f
    | .ok q =>
      match db.find? (fun e => matchesQuery q e) with
      | none => .error (.app ⟨"No order found with that ID for your account.", 404⟩)
      | some e => .ok e.2

/-- Controller `cancelMyOrder` (`src/controllers/orderController.js`
lines 314-387): access-controlled fetch, then the customer cancellation
guards — already cancelled, delivered, or shipped-and-paid all refuse —
then the cancellation is applied and saved. -/
def cancelMyOrder (db : List (String × Order)) (req : Requester)
    (bodyGuestEmail : Option String) (orderId : String) (now : Nat) :
    Except Failure Order :=
  if orderId.length ≠ 24 then
    .error (.app ⟨"Please provide a valid order ID.", 400⟩)
  else
    match buildAccessQuery req bodyGuestEmail orderId
        "Please provide your email to cancel this order." with
    | .error f => .error f
    | .ok q =>
      match db.find? (fun e => matchesQuery q e) with
      | none => .error (.app ⟨"No order found with this ID for your account.", 404⟩)
      | some e =>
        let o := e.2
        if o.status = "cancelled" ∨ o.isCancelled then
          .error (.app ⟨"This order has already been cancelled.", 400⟩)
        else if o.status = "delivered" ∨ o.isDelivered then
          .error (.app ⟨"Delivered orders cannot be cancelled.", 400⟩)
        else if o.status = "shipped" ∧ o.paymentStatus = "paid" then
          .error (.app ⟨"Shipped and paid orders cannot be cancelled.", 400⟩)
        else
          saveOrder { o with status := "cancelled", isCancelled := true,
                             cancelledAt := some now }

/-- The mutations `updateOrderStatus` applies once its guards passed
(`src/controllers/orderController.js` lines 665-685), written per field:
the new status, cancellation and delivery flags with their timestamps,
optional notes, and cash-on-delivery settlement when a cash order is
delivered. -/
def applyStatusUpdate (o : Order) (ns : String) (notes : Option String)
    (now : Nat) : Order :=
  { o with
    status := ns,
    isCancelled := if ns = "cancelled" then true else o.isCancelled,
    cancelledAt := if ns = "cancelled" then some now else o.cancelledAt,
    isDelivered := if ns = "delivered" then true else o.isDelivered,
    deliveredAt := if ns = "delivered" then some now else o.deliveredAt,
    notes := match notes with | some n => some n | none => o.notes,
    isPaid := if ns = "delivered" ∧ o.paymentMethod = "cash" then true else o.isPaid,
    paidAt := if ns = "delivered" ∧ o.paymentMethod = "cash" then some now else o.paidAt,
    paymentStatus := if ns = "delivered" ∧ o.paymentMethod = "cash"
      then "paid" else o.paymentStatus }

/-- Controller `updateOrderStatus` (`src/controllers/orderController.js`
lines 608-703), for an already-fetched order (the route is admin-only;
the id-shape and 404 checks are upstream of the logic under test):
normalizes and validates the target status, refuses cancellation of
confirmed/shipped/delivered orders, refuses any update of delivered
orders and no-op updates, then applies the transition, its flag and
timestamp effects, and the cash-on-delivery settlement. -/
def updateOrderStatus (o : Order) (newStatusRaw : Option String)
    (notes : Option String) (now : Nat) : Except Failure Order :=
  match newStatusRaw with
  | none => .error (.app ⟨"Please provide a new order status.", 400⟩)
  | some raw =>
    let ns := strToLower raw
    if ns ∉ statusEnum then
      .error (.app ⟨"Invalid status", 400⟩)
    else if o.status ∈ (["confirmed", "shipped", "delivered"] : List String)
        ∧ ns = "cancelled" then
      .error (.app ⟨"You cannot cancel an order that is already confirmed or beyond.", 400⟩)
    else if o.status = "delivered" then
      .error (.app ⟨"Delivered orders cannot be updated.", 400⟩)
    else if o.status = ns then
      .error (.app ⟨"Order already has this status.", 400⟩)
    else
      saveOrder (applyStatusUpdate o ns notes now)

/-- Controller `markOrderAsPaid` (`src/controllers/orderController.js`
lines 705-758), for an already-fetched order: admin-only; refuses
cancelled or already-paid orders; on success marks the order paid and
also delivered with status `delivered` and payment status `paid`. -/
def markOrderAsPaid (o : Order) (role : String) (notes : Option String)
    (now : Nat) : Except Failure Order :=
  if role ≠ "admin" then
    .error (.app ⟨"Only admins can mark orders as paid.", 403⟩)
  else if o.status = "cancelled" ∨ o.isCancelled then
    .error (.app ⟨"This order is cancelled and cannot be marked as paid.", 400⟩)
  else if o.isPaid then
    .error (.app ⟨"Order is already marked as paid.", 400⟩)
  else
    let o1 := { o with isPaid := true, paidAt := some now,
                       isDelivered := true, status := "delivered",
                       paymentStatus := "paid" }
    saveOrder (match notes with
      | some n => { o1 with notes := some n }
      | none => o1)

/-- Controller `markOrderAsCancelled` (`src/controllers/orderController.js`
lines 817-861), for an already-fetched order: admin-only; refuses
delivered or already-cancelled orders; otherwise cancels. -/
def markOrderAsCancelled (o : Order) (role : String) (notes : Option String)
    (now : Nat) : Except Failure Order :=
  if role ≠ "admin" then
    .error (.app ⟨"Only admins can cancel orders.", 403⟩)
  else if o.status = "delivered" then
    .error (.app ⟨"Delivered orders cannot be cancelled.", 400⟩)
  else if o.status = "cancelled" ∨ o.isCancelled then
    .error (.app ⟨"Order is already cancelled.", 400⟩)
  else
    let o1 := { o with status := "cancelled", isCancelled := true,
                       cancelledAt := some now }
    saveOrder (match notes with
      | some n => { o1 with notes := some n }
      | none => o1)

/-- Controller `markOrderAsDelivered` (`src/controllers/orderController.js`
lines 760-815), for an already-fetched order: admin-only; refuses
cancelled or already-delivered orders; on success marks the order
delivered with status `delivered` and a timestamp, stores notes when
given, and settles cash payment (`isPaid`, `paidAt`, paymentStatus
`paid`) when the payment method is cash and the order is not yet paid. -/
def markOrderAsDelivered (o : Order) (role : String) (notes : Option String)
    (now : Nat) : Except Failure Order :=
  if role ≠ "admin" then
    .error (.app ⟨"Only admins can mark orders as delivered.", 403⟩)
  else if o.status = "cancelled" ∨ o.isCancelled = true then
    .error (.app ⟨"This order was cancelled and cannot be marked as delivered.", 400⟩)
  else if o.isDelivered then
    .error (.app ⟨"Order is already marked as delivered.", 400⟩)
  else
    let o1 := { o with status := "delivered", isDelivered := true,
                       deliveredAt := some now }
    let o2 := match notes with
      | some n => { o1 with notes := some n }
      | none => o1
    saveOrder (if o.paymentMethod = "cash" ∧ o.isPaid = false
      then { o2 with isPaid := true, paidAt := some now, paymentStatus := "paid" }
      else o2)

/-- Success test for an `Except` outcome. -/
def exceptOk : Except Failure α → Bool
  | .ok _ => true
  | .error _ => false

instance {ε α : Type} [DecidableEq ε] [DecidableEq α] : DecidableEq (Except ε α)
  | .error e, .error f =>
      if h : e = f then .isTrue (h ▸ rfl)
      else .isFalse (fun hh => h (Except.error.inj hh))
  | .error _, .ok _ => .isFalse (fun hh => Except.noConfusion hh)
  | .ok _, .error _ => .isFalse (fun hh => Except.noConfusion hh)
  | .ok a, .ok b =>
      if h : a = b then .isTrue (h ▸ rfl)
      else .isFalse (fun hh => h (Except.ok.inj hh))

/-! ## Example fixtures (concrete inputs for witnesses and counterexamples) -/

/-- Line of the worked example of the spec: price 10, quantity 2. -/
def exItem1 : ItemData := { product := 1, name := "A", quantity := 2, price := 10 }

/-- Line of the worked example of the spec: price 5, quantity 1. -/
def exItem2 : ItemData := { product := 2, name := "B", quantity := 1, price := 5 }

/-- An empty cart with shipping cost 5. -/
def exCart0 : Cart := { shippingCost := 5 }

/-- The cart obtained from `exCart0` by adding `exItem1` then `exItem2`. -/
def exCartFinal : Cart :=
  { shippingCost := 5, items := [exItem1.toCartItem, exItem2.toCartItem],
    subtotal := 25, totalAmount := 30 }

/-- A one-line cart used for the removeItem miss. -/
def exCartC8 : Cart :=
  { items := [{ product := 1, name := "A", quantity := 1, price := 2 }] }

/-- A concrete shipping address. -/
def exAddr : ShippingAddress :=
  { fullName := "N", phone := "1", country := "C", city := "Y",
    street := "S", postalCode := "Z" }

/-- A convertible one-line cart paying by card. -/
def exCardCart : Cart :=
  { items := [exItem1.toCartItem], paymentMethod := some "card",
    subtotal := 20, totalAmount := 20 }

/-- The cart state persisted by a successful conversion of `exCardCart`. -/
def exCartAfterConvert : Cart :=
  (convertToOrderRun exCardCart [] {} (some exAddr) (some "card") 0).1.1

/-- A concrete payment-details snapshot. -/
def exPd : PaymentDetails := { provider := "card", paymentID := "p" }

/-- A valid card order of user 7 in its initial `processing` state. -/
def exOrderBase : Order :=
  { user := some 7,
    orderItems := [{ product := 1, name := "A", quantity := 1, price := 10 }],
    shippingAddress := exAddr, paymentDetails := exPd,
    paymentMethod := "card", totalAmount := 10 }

/-- The valid order in the `cancelled` state. -/
def exCancelledOrder : Order :=
  { exOrderBase with status := "cancelled", isCancelled := true,
                     cancelledAt := some 5 }

/-- The valid order in the `confirmed` state. -/
def exConfirmedOrder : Order := { exOrderBase with status := "confirmed" }

/-- The valid order shipped and with paymentStatus `paid`. -/
def exShippedPaidOrder : Order :=
  { exOrderBase with status := "shipped", paymentStatus := "paid" }

/-- A well-formed 24-character order id. -/
def exOid : String := "aaaaaaaaaaaaaaaaaaaaaaaa"

/-- A guest order with guest email a@b.com and no user reference. -/
def exGuestOrder : Order :=
  { orderItems := [{ product := 1, name := "A", quantity := 1, price := 10 }],
    shippingAddress := exAddr, paymentDetails := exPd,
    paymentMethod := "card", totalAmount := 10,
    isGuest := true, guestEmail := some "a@b.com" }

/-- A second well-formed 24-character order id. -/
def exGOid : String := "cccccccccccccccccccccccc"

/-! ## Theorems -/

theorem saveCart_ok {c c' : Cart} (h : saveCart c = .ok c') : c' = c := by
  unfold saveCart at h
  by_cases hv : ValidCart c
  · rw [if_pos hv] at h; exact (Except.ok.inj h).symm
  · rw [if_neg hv] at h; exact absurd h (by simp)

theorem calculateTotals_ok {c c' : Cart} (h : calculateTotals c = .ok c') :
    c' = { c with
      subtotal := round2 (itemsSubtotal c.items),
      totalAmount := round2 (round2 (itemsSubtotal c.items) + c.shippingCost) } := by
  unfold calculateTotals at h
  split at h
  · exact absurd h (by simp)
  · exact saveCart_ok h

theorem calculateTotals_invariant {c c' : Cart} (h : calculateTotals c = .ok c') :
    CartTotalsInvariant c' := by
  have e := calculateTotals_ok h
  subst e
  exact ⟨rfl, rfl⟩

theorem applyOp_ok_invariant {c c' : Cart} (op : CartOp)
    (h : applyOp c op = .ok c') : CartTotalsInvariant c' := by
  cases op with
  | add d =>
      have h2 : addItem c d = .ok c' := h
      unfold addItem at h2
      by_cases hc : c.isConverted = true
      · rw [if_pos hc] at h2; exact absurd h2 (by simp)
      · rw [if_neg hc] at h2
        exact calculateTotals_invariant h2
  | remove i =>
      have h2 : removeItem c i = .ok c' := h
      unfold removeItem at h2
      by_cases hc : c.isConverted = true
      · rw [if_pos hc] at h2; exact absurd h2 (by simp)
      · rw [if_neg hc] at h2
        cases hf : findIndex (fun it => matchesItemId it i) c.items with
        | none => rw [hf] at h2; exact absurd h2 (by simp)
        | some j => rw [hf] at h2; exact calculateTotals_invariant h2
  | update i q =>
      have h2 : updateItemQuantity c i q = .ok c' := h
      unfold updateItemQuantity at h2
      by_cases hc : c.isConverted = true
      · rw [if_pos hc] at h2; exact absurd h2 (by simp)
      · rw [if_neg hc] at h2
        cases hf : findIndex (fun it => matchesItemId it i) c.items with
        | none => rw [hf] at h2; exact absurd h2 (by simp)
        | some j => rw [hf] at h2; exact calculateTotals_invariant h2

/-- C1: after any non-empty sequence of successful addItem / removeItem /
updateItemQuantity operations, the cart's subtotal equals the sum of
price times quantity over its lines and its totalAmount equals subtotal
plus shippingCost, both rounded to 2 decimal places. -/
theorem cart_totals_invariant_after_ops (c c' : Cart) (ops : List CartOp)
    (hne : ops ≠ []) (h : applyOps c ops = .ok c') : CartTotalsInvariant c' := by
  induction ops generalizing c with
  | nil => exact absurd rfl hne
  | cons op rest ih =>
      unfold applyOps at h
      cases hop : applyOp c op with
      | error e => rw [hop] at h; exact absurd h (by simp [Except.bind])
      | ok c1 =>
          rw [hop] at h
          have h' : applyOps c1 rest = .ok c' := h
          cases rest with
          | nil =>
              have : c1 = c' := Except.ok.inj h'
              exact this ▸ applyOp_ok_invariant op hop
          | cons op2 rest2 => exact ih c1 (List.cons_ne_nil _ _) h'

/-- Witness for C1 at the worked example of the spec: adding lines
(price 10, qty 2) and (price 5, qty 1) to an empty cart with shipping 5
succeeds with subtotal 25 and total 30, satisfying the invariant. -/
theorem cart_totals_invariant_after_ops_witness :
    ([CartOp.add exItem1, CartOp.add exItem2] ≠ ([] : List CartOp)) ∧
    applyOps exCart0 [CartOp.add exItem1, CartOp.add exItem2] = .ok exCartFinal ∧
    CartTotalsInvariant exCartFinal :=
  ⟨by decide, by decide,
   cart_totals_invariant_after_ops exCart0 exCartFinal
     [CartOp.add exItem1, CartOp.add exItem2] (by decide) (by decide)⟩

theorem findIndex_eq_none {α : Type} (p : α → Bool) (l : List α)
    (h : ∀ a ∈ l, p a = false) : findIndex p l = none := by
  induction l with
  | nil => rfl
  | cons a tl ih =>
      rw [findIndex, h a (by simp), ih (fun b hb => h b (by simp [hb]))]
      rfl

theorem findIndex_eq_some {α : Type} (p : α → Bool) (l : List α) (i : Nat)
    (h : findIndex p l = some i) : ∃ a, l.get? i = some a ∧ p a = true := by
  induction l generalizing i with
  | nil => exact absurd h (by simp [findIndex])
  | cons a tl ih =>
      rw [findIndex] at h
      by_cases hp : p a = true
      · rw [if_pos hp] at h
        cases Option.some.inj h
        exact ⟨a, rfl, hp⟩
      · rw [if_neg hp] at h
        obtain ⟨j, hj, hji⟩ := Option.map_eq_some'.mp h
        subst hji
        obtain ⟨b, hb, hpb⟩ := ih j hj
        exact ⟨b, by simpa using hb, hpb⟩

theorem modifyAt_length {α : Type} (l : List α) (i : Nat) (f : α → α) :
    (modifyAt l i f).length = l.length := by
  induction l generalizing i with
  | nil => rfl
  | cons a tl ih => cases i with
      | zero => rfl
      | succ n => simpa [modifyAt] using ih n

theorem modifyAt_get?_self {α : Type} (l : List α) (i : Nat) (f : α → α)
    (a : α) (h : l.get? i = some a) : (modifyAt l i f).get? i = some (f a) := by
  induction l generalizing i with
  | nil => exact absurd h (by simp)
  | cons b tl ih => cases i with
      | zero => cases Option.some.inj h; rfl
      | succ n => simpa [modifyAt] using ih n (by simpa using h)

theorem modifyAt_get?_ne {α : Type} (l : List α) (i j : Nat) (f : α → α)
    (h : j ≠ i) : (modifyAt l i f).get? j = l.get? j := by
  induction l generalizing i j with
  | nil => rfl
  | cons b tl ih => cases i with
      | zero => cases j with
          | zero => exact absurd rfl h
          | succ m => rfl
      | succ n => cases j with
          | zero => rfl
          | succ m => simpa [modifyAt] using ih n m (fun e => h (by rw [e]))

/-- C7: on a non-converted cart, addItem with an item matching an
existing line (same product, structurally identical variant, which is
the `sameLine` test of the source) bumps the quantity of the first such
line by the added quantity and keeps every other line and the line count
unchanged; with no matching line it appends the new line at the end. -/
theorem addItem_merge_or_append (c : Cart) (d : ItemData) (c' : Cart)
    (hconv : c.isConverted = false) (h : addItem c d = .ok c') :
    (∀ i, findIndex (fun it => sameLine it d) c.items = some i →
       c'.items.length = c.items.length ∧
       (∃ it, c.items.get? i = some it ∧
          c'.items.get? i = some { it with quantity := it.quantity + d.quantity }) ∧
       (∀ j, j ≠ i → c'.items.get? j = c.items.get? j)) ∧
    (findIndex (fun it => sameLine it d) c.items = none →
       c'.items = c.items ++ [d.toCartItem]) := by
  unfold addItem at h
  rw [if_neg (by simp [hconv])] at h
  cases hf : findIndex (fun it => sameLine it d) c.items with
  | none =>
      rw [hf] at h
      have e := calculateTotals_ok h
      constructor
      · intro i hi; exact absurd hi (by simp)
      · intro _; rw [e]
  | some i0 =>
      rw [hf] at h
      have e := calculateTotals_ok h
      constructor
      · intro i hi
        have hi0 : i0 = i := Option.some.inj hi
        subst hi0
        obtain ⟨it, hit, hsame⟩ := findIndex_eq_some _ _ _ hf
        refine ⟨?_, ⟨it, hit, ?_⟩, ?_⟩
        · rw [e]; exact modifyAt_length _ _ _
        · rw [e]; exact modifyAt_get?_self _ _ _ _ hit
        · intro j hj; rw [e]; exact modifyAt_get?_ne _ _ _ _ hj
      · intro hnone; exact absurd hnone (by simp [hf])

/-- Witness for C7: adding a line with the same product and variant as
the single existing line of a one-line cart merges into it, doubling the
quantity. -/
theorem addItem_merge_or_append_witness :
    (exCartFinal.isConverted = false) ∧
    (∃ it, exCartFinal.items.get? 0 = some it ∧
      (addItem exCartFinal exItem1).map Cart.items =
        .ok (modifyAt exCartFinal.items 0
          (fun x => { x with quantity := x.quantity + exItem1.quantity }))) ∧
    (∀ i, findIndex (fun it => sameLine it exItem1) exCartFinal.items = some i →
       ∃ c', addItem exCartFinal exItem1 = .ok c' ∧
         c'.items.length = exCartFinal.items.length) := by
  refine ⟨rfl, ⟨exItem1.toCartItem, by decide, by decide⟩, ?_⟩
  intro i hi
  have hok : addItem exCartFinal exItem1 =
      .ok { exCartFinal with
        items := modifyAt exCartFinal.items 0
          (fun x => { x with quantity := x.quantity + exItem1.quantity }),
        subtotal := 45, totalAmount := 50 } := by decide
  refine ⟨_, hok, ?_⟩
  exact ((addItem_merge_or_append exCartFinal exItem1 _ rfl hok).1 i hi).1

/-- C8 evaluation: on a non-converted cart none of whose lines matches
the supplied item id, removeItem does not produce the intended 404
`AppError`: the source calls the undefined identifier `next`, raising a
JS `ReferenceError` (surfaced as a 500) before any mutation. -/
theorem removeItem_unmatched_reference_error (c : Cart) (itemId : String)
    (hconv : c.isConverted = false)
    (h : ∀ it ∈ c.items, toString it.product ≠ itemId) :
    removeItem c itemId = .error (.referenceError "next is not defined") := by
  unfold removeItem
  rw [if_neg (by simp [hconv])]
  rw [findIndex_eq_none _ _ (fun a ha => by simp [matchesItemId, h a ha])]

/-- Witness for C8 at a concrete miss: removing id "2" from a cart whose
only line has product id 1. -/
theorem removeItem_unmatched_reference_error_witness :
    (exCartC8.isConverted = false) ∧
    removeItem exCartC8 "2" = .error (.referenceError "next is not defined") :=
  ⟨rfl, removeItem_unmatched_reference_error exCartC8 "2" rfl (by decide)⟩

theorem exceptOk_eq_true {α : Type} {x : Except Failure α} :
    exceptOk x = true ↔ ∃ a, x = .ok a := by
  cases x <;> simp [exceptOk]

theorem buildOrderData_fields (c : Cart) (addr : ShippingAddress) (pm : String)
    (pd : PaymentDetailsInput) (now : Nat) :
    (buildOrderData c addr pm pd now).status =
        (if pm = "cash" then "pending" else "processing") ∧
    (buildOrderData c addr pm pd now).paymentStatus = "pending" ∧
    (buildOrderData c addr pm pd now).isPaid = decide (pm ≠ "cash") := by
  unfold buildOrderData
  cases c.user with
  | some u => exact ⟨rfl, rfl, rfl⟩
  | none =>
      cases hg : c.isGuest
      · exact ⟨rfl, rfl, rfl⟩
      · exact ⟨rfl, rfl, rfl⟩

theorem orderCreate_pending_fails (o : Order) (h : o.status = "pending") :
    orderCreate o = .error (.app ⟨"Order validation failed", 500⟩) := by
  unfold orderCreate
  rw [if_neg]
  intro hv
  have hst := hv.2.2.2.2.2.1
  rw [h] at hst
  simp [statusEnum] at hst

theorem orderCreate_ok {o o' : Order} (h : orderCreate o = .ok o') :
    ValidOrder o ∧ o = o' := by
  unfold orderCreate at h
  by_cases hv : ValidOrder o
  · rw [if_pos hv] at h; exact ⟨hv, Except.ok.inj h⟩
  · rw [if_neg hv] at h; exact absurd h (by simp)

theorem convertToOrderRun_ok_shape (c : Cart) (orders : List Order)
    (pd : PaymentDetailsInput) (sa : Option ShippingAddress) (pm : Option String)
    (now : Nat) (o : Order)
    (h : (convertToOrderRun c orders pd sa pm now).2 = .ok o) :
    ∃ addr pmv c1, sa = some addr ∧ pm = some pmv ∧
      orderCreate (buildOrderData c1 addr pmv pd now) = .ok o := by
  unfold convertToOrderRun at h
  by_cases h1 : c.isConverted = true
  · rw [if_pos h1] at h; exact absurd h (by simp)
  · rw [if_neg h1] at h
    by_cases h2 : c.items.length = 0
    · rw [if_pos h2] at h; exact absurd h (by simp)
    · rw [if_neg h2] at h
      cases sa with
      | none => exact absurd h (by simp)
      | some addr =>
        cases pm with
        | none => exact absurd h (by simp)
        | some pmv =>
          cases hct : (if (c.totalAmount == 0 || c.subtotal == 0) = true
              then calculateTotals c else Except.ok c) with
          | error e => simp only [hct] at h; exact absurd h (by simp)
          | ok c1 =>
            simp only [hct] at h
            cases hoc : orderCreate (buildOrderData c1 addr pmv pd now) with
            | error e => simp only [hoc] at h; exact absurd h (by simp)
            | ok o2 =>
              simp only [hoc] at h
              cases hsc : saveCart { c1 with isConverted := true } with
              | error e => simp only [hsc] at h; exact absurd h (by simp)
              | ok c2 =>
                simp only [hsc] at h
                have ho2 : o2 = o := by simpa using h
                exact ⟨addr, pmv, c1, rfl, rfl, by rw [hoc, ho2]⟩

/-- C2: a second convertToOrder on an already-converted cart fails with
the 400 conflict error, leaves the cart and the order collection exactly
as they were, and creates no Order. -/
theorem convert_twice_conflict (c : Cart) (orders : List Order)
    (pd : PaymentDetailsInput) (sa : Option ShippingAddress)
    (pm : Option String) (now : Nat) (h : c.isConverted = true) :
    convertToOrderRun c orders pd sa pm now =
      ((c, orders),
       .error (.app ⟨"Cart has already been converted to an order", 400⟩)) := by
  unfold convertToOrderRun
  rw [if_pos h]

/-- Witness for C2: a successful card conversion leaves a converted
cart, and converting that cart again fails with the conflict error,
changing nothing. -/
theorem convert_twice_conflict_witness :
    (exCartAfterConvert.isConverted = true) ∧
    convertToOrderRun exCartAfterConvert [] {} (some exAddr) (some "card") 0 =
      ((exCartAfterConvert, []),
       .error (.app ⟨"Cart has already been converted to an order", 400⟩)) :=
  ⟨by decide,
   convert_twice_conflict exCartAfterConvert [] {} (some exAddr) (some "card") 0
     (by decide)⟩

/-- C3 evaluation: conversion of any cart with paymentMethod cash never
succeeds, for any store state and input: `convertToOrder` assigns order
status `pending` for cash, a value the Order schema's status enum
rejects, so `Order.create` always fails before an Order exists.  The
spec instead says a cash conversion succeeds with an unpaid `pending`
order. -/
theorem convert_cash_never_succeeds (c : Cart) (orders : List Order)
    (pd : PaymentDetailsInput) (sa : Option ShippingAddress) (now : Nat) :
    exceptOk (convertToOrderRun c orders pd sa (some "cash") now).2 = false := by
  by_contra hne
  have hok : exceptOk (convertToOrderRun c orders pd sa (some "cash") now).2 = true :=
    Bool.not_eq_false _ ▸ (Bool.of_not_eq_false hne)
  obtain ⟨o, ho⟩ := exceptOk_eq_true.mp hok
  obtain ⟨addr, pmv, c1, hsa, hpm, hoc⟩ :=
    convertToOrderRun_ok_shape c orders pd sa (some "cash") now o ho
  have hpmv : pmv = "cash" := (Option.some.inj hpm).symm
  subst hpmv
  rw [orderCreate_pending_fails _ (by rw [(buildOrderData_fields c1 addr "cash" pd now).1]; rfl)] at hoc
  exact absurd hoc (by simp)

theorem saveOrder_ok {o o' : Order} (h : saveOrder o = .ok o') : o' = o := by
  unfold saveOrder at h
  by_cases hv : ValidOrder o
  · rw [if_pos hv] at h; exact (Except.ok.inj h).symm
  · rw [if_neg hv] at h; exact absurd h (by simp)

theorem updateOrderStatus_ok_shape {p : Order} {raw : String}
    {notes : Option String} {now2 : Nat} {r : Order}
    (h : updateOrderStatus p (some raw) notes now2 = .ok r) :
    r = applyStatusUpdate p (strToLower raw) notes now2 := by
  simp only [updateOrderStatus] at h
  by_cases e1 : strToLower raw ∉ statusEnum
  · rw [if_pos e1] at h; exact absurd h (by simp)
  · rw [if_neg e1] at h
    by_cases e2 : p.status ∈ (["confirmed", "shipped", "delivered"] : List String)
        ∧ strToLower raw = "cancelled"
    · rw [if_pos e2] at h; exact absurd h (by simp)
    · rw [if_neg e2] at h
      by_cases e3 : p.status = "delivered"
      · rw [if_pos e3] at h; exact absurd h (by simp)
      · rw [if_neg e3] at h
        by_cases e4 : p.status = strToLower raw
        · rw [if_pos e4] at h; exact absurd h (by simp)
        · rw [if_neg e4] at h; exact saveOrder_ok h

/-- C10: every Order actually produced by convertToOrder has
paymentStatus still at the schema default `pending` (the method never
sets the field), while isPaid is true: a successful conversion is
necessarily non-cash (cash conversions fail on the status enum), so the
order starts paid by flag yet pending by payment status.  Moreover,
paymentStatus becomes `paid` only through a delivery or mark-as-paid
operation: customer cancellation, admin cancellation, and any status
update other than to `delivered` preserve paymentStatus; delivery
(markOrderAsDelivered, and the delivered transition of the status
update via its cash settlement) sets it to `paid` exactly on
cash-on-delivery settlement; markOrderAsPaid always sets it to `paid`. -/
theorem converted_order_pending_paymentStatus (c : Cart) (orders : List Order)
    (pd : PaymentDetailsInput) (sa : Option ShippingAddress) (pm : Option String)
    (now : Nat) (o : Order)
    (h : (convertToOrderRun c orders pd sa pm now).2 = .ok o) :
    (o.paymentStatus = "pending" ∧ o.isPaid = true) ∧
    (∀ (db : List (String × Order)) (req : Requester) (g : Option String)
        (oid : String) (now2 : Nat) (r : Order),
        cancelMyOrder db req g oid now2 = .ok r →
        ∃ e ∈ db, r.paymentStatus = e.2.paymentStatus) ∧
    (∀ (p : Order) (role : String) (notes : Option String) (now2 : Nat) (r : Order),
        markOrderAsCancelled p role notes now2 = .ok r →
        r.paymentStatus = p.paymentStatus) ∧
    (∀ (p : Order) (ns : String) (notes : Option String) (now2 : Nat) (r : Order),
        strToLower ns ≠ "delivered" →
        updateOrderStatus p (some ns) notes now2 = .ok r →
        r.paymentStatus = p.paymentStatus) ∧
    (∀ (p : Order) (role : String) (notes : Option String) (now2 : Nat) (r : Order),
        markOrderAsDelivered p role notes now2 = .ok r →
        r.paymentStatus =
          (if p.paymentMethod = "cash" ∧ p.isPaid = false then "paid"
           else p.paymentStatus)) ∧
    (∀ (p : Order) (role : String) (notes : Option String) (now2 : Nat) (r : Order),
        markOrderAsPaid p role notes now2 = .ok r → r.paymentStatus = "paid") := by
  refine ⟨?_, ?_, ?_, ?_, ?_, ?_⟩
  · obtain ⟨addr, pmv, c1, hsa, hpm, hoc⟩ :=
      convertToOrderRun_ok_shape c orders pd sa pm now o h
    obtain ⟨hv, heq⟩ := orderCreate_ok hoc
    have hfields := buildOrderData_fields c1 addr pmv pd now
    have hnotcash : pmv ≠ "cash" := by
      intro hc
      have hst := hv.2.2.2.2.2.1
      rw [hfields.1, if_pos hc] at hst
      simp [statusEnum] at hst
    constructor
    · rw [← heq]; exact hfields.2.1
    · rw [← heq, hfields.2.2]; simp [hnotcash]
  · intro db req g oid now2 r hr
    unfold cancelMyOrder at hr
    by_cases hlen2 : oid.length ≠ 24
    · rw [if_pos hlen2] at hr; exact absurd hr (by simp)
    · rw [if_neg hlen2] at hr
      cases hq : buildAccessQuery req g oid
          "Please provide your email to cancel this order." with
      | error f => simp only [hq] at hr; exact absurd hr (by simp)
      | ok q =>
        simp only [hq] at hr
        cases hf : List.find? (fun e => matchesQuery q e) db with
        | none => simp only [hf] at hr; exact absurd hr (by simp)
        | some e =>
          simp only [hf] at hr
          refine ⟨e, List.mem_of_find?_eq_some hf, ?_⟩
          by_cases g1 : e.2.status = "cancelled" ∨ e.2.isCancelled = true
          · rw [if_pos g1] at hr; exact absurd hr (by simp)
          · rw [if_neg g1] at hr
            by_cases g2 : e.2.status = "delivered" ∨ e.2.isDelivered = true
            · rw [if_pos g2] at hr; exact absurd hr (by simp)
            · rw [if_neg g2] at hr
              by_cases g3 : e.2.status = "shipped" ∧ e.2.paymentStatus = "paid"
              · rw [if_pos g3] at hr; exact absurd hr (by simp)
              · rw [if_neg g3] at hr
                rw [saveOrder_ok hr]
  · intro p role notes now2 r hr
    unfold markOrderAsCancelled at hr
    by_cases hrole : role ≠ "admin"
    · rw [if_pos hrole] at hr; exact absurd hr (by simp)
    · rw [if_neg hrole] at hr
      by_cases h1 : p.status = "delivered"
      · rw [if_pos h1] at hr; exact absurd hr (by simp)
      · rw [if_neg h1] at hr
        by_cases h2 : p.status = "cancelled" ∨ p.isCancelled = true
        · rw [if_pos h2] at hr; exact absurd hr (by simp)
        · rw [if_neg h2] at hr
          cases notes with
          | none => rw [saveOrder_ok hr]
          | some n => rw [saveOrder_ok hr]
  · intro p ns notes now2 r hns hr
    rw [updateOrderStatus_ok_shape hr]
    dsimp only [applyStatusUpdate]
    rw [if_neg (fun hh => hns hh.1)]
  · intro p role notes now2 r hr
    unfold markOrderAsDelivered at hr
    by_cases hrole : role ≠ "admin"
    · rw [if_pos hrole] at hr; exact absurd hr (by simp)
    · rw [if_neg hrole] at hr
      by_cases h1 : p.status = "cancelled" ∨ p.isCancelled = true
      · rw [if_pos h1] at hr; exact absurd hr (by simp)
      · rw [if_neg h1] at hr
        by_cases h2 : p.isDelivered = true
        · rw [if_pos h2] at hr; exact absurd hr (by simp)
        · rw [if_neg h2] at hr
          cases notes with
          | none =>
              rw [saveOrder_ok hr]
              by_cases hc : p.paymentMethod = "cash" ∧ p.isPaid = false
              · rw [if_pos hc, if_pos hc]; try rfl
              · rw [if_neg hc, if_neg hc]; try rfl
          | some n =>
              rw [saveOrder_ok hr]
              by_cases hc : p.paymentMethod = "cash" ∧ p.isPaid = false
              · rw [if_pos hc, if_pos hc]; try rfl
              · rw [if_neg hc, if_neg hc]; try rfl
  · intro p role notes now2 r hr
    unfold markOrderAsPaid at hr
    by_cases hrole : role ≠ "admin"
    · rw [if_pos hrole] at hr; exact absurd hr (by simp)
    · rw [if_neg hrole] at hr
      by_cases h1 : p.status = "cancelled" ∨ p.isCancelled = true
      · rw [if_pos h1] at hr; exact absurd hr (by simp)
      · rw [if_neg h1] at hr
        by_cases h2 : p.isPaid = true
        · rw [if_pos h2] at hr; exact absurd hr (by simp)
        · rw [if_neg h2] at hr
          cases notes with
          | none => rw [saveOrder_ok hr]
          | some n => rw [saveOrder_ok hr]

theorem statusEnum_toLower {s : String} (h : s ∈ statusEnum) : strToLower s = s := by
  simp [statusEnum] at h
  rcases h with rfl | rfl | rfl | rfl | rfl <;> decide

theorem saveOrder_ok_of_valid {o : Order} (h : ValidOrder o) :
    saveOrder o = .ok o := by
  unfold saveOrder
  rw [if_pos h]

theorem validOrder_applyStatusUpdate (o : Order) (ns : String)
    (notes : Option String) (now : Nat) (hv : ValidOrder o)
    (hns : ns ∈ statusEnum) : ValidOrder (applyStatusUpdate o ns notes now) := by
  obtain ⟨h1, h2, h3, h4, h5, h6, h7⟩ := hv
  refine ⟨h1, h2, h3, h4, ?_, hns, h7⟩
  dsimp [applyStatusUpdate]
  split
  · decide
  · exact h5

theorem updateOrderStatus_some (o : Order) (ns : String) (notes : Option String)
    (now : Nat) (hl : strToLower ns = ns) :
    updateOrderStatus o (some ns) notes now =
      (if ns ∉ statusEnum then .error (.app ⟨"Invalid status", 400⟩)
       else if o.status ∈ (["confirmed", "shipped", "delivered"] : List String)
           ∧ ns = "cancelled" then
         .error (.app ⟨"You cannot cancel an order that is already confirmed or beyond.", 400⟩)
       else if o.status = "delivered" then
         .error (.app ⟨"Delivered orders cannot be updated.", 400⟩)
       else if o.status = ns then
         .error (.app ⟨"Order already has this status.", 400⟩)
       else saveOrder (applyStatusUpdate o ns notes now)) := by
  simp only [updateOrderStatus, hl]

/-- C4 (amended): the admin status update fails from `delivered`, fails
on a no-op (new status equal to current), and fails on cancelling a
confirmed, shipped or delivered order; but a `cancelled` order is not
terminal for this operation: an update from `cancelled` to any other
status succeeds. -/
theorem updateOrderStatus_transition_guards (o : Order) (ns : String)
    (notes : Option String) (now : Nat) (hvalid : ValidOrder o)
    (hns : ns ∈ statusEnum) :
    (o.status = "delivered" →
      exceptOk (updateOrderStatus o (some ns) notes now) = false) ∧
    (ns = o.status →
      exceptOk (updateOrderStatus o (some ns) notes now) = false) ∧
    ((ns = "cancelled" ∧
        o.status ∈ (["confirmed", "shipped", "delivered"] : List String)) →
      exceptOk (updateOrderStatus o (some ns) notes now) = false) ∧
    ((o.status = "cancelled" ∧ ns ≠ "cancelled") →
      exceptOk (updateOrderStatus o (some ns) notes now) = true) := by
  have hl := statusEnum_toLower hns
  rw [updateOrderStatus_some o ns notes now hl,
      if_neg (not_not_intro hns)]
  refine ⟨?_, ?_, ?_, ?_⟩
  · intro hd
    by_cases hc : ns = "cancelled"
    · rw [if_pos ⟨by simp [hd], hc⟩]; rfl
    · rw [if_neg (fun hh => hc hh.2), if_pos hd]; rfl
  · intro hb
    by_cases h5 : o.status ∈ (["confirmed", "shipped", "delivered"] : List String)
        ∧ ns = "cancelled"
    · rw [if_pos h5]; rfl
    · rw [if_neg h5]
      by_cases hd : o.status = "delivered"
      · rw [if_pos hd]; rfl
      · rw [if_neg hd, if_pos hb.symm]; rfl
  · rintro ⟨hc, hmem⟩
    rw [if_pos ⟨hmem, hc⟩]; rfl
  · rintro ⟨hcan, hne⟩
    rw [if_neg (fun hh => by rw [hcan] at hh; simp at hh)]
    rw [if_neg (by rw [hcan]; decide)]
    rw [if_neg (fun hh => hne (by rw [hcan] at hh; exact hh.symm))]
    rw [saveOrder_ok_of_valid (validOrder_applyStatusUpdate o ns notes now hvalid hns)]
    rfl

/-- Witness for C4 at a concrete input: cancelling a confirmed order via
the status update fails, as the amended claim requires. -/
theorem updateOrderStatus_transition_guards_witness :
    ValidOrder exConfirmedOrder ∧ ("cancelled" ∈ statusEnum) ∧
    exceptOk (updateOrderStatus exConfirmedOrder (some "cancelled") none 0) = false :=
  ⟨by decide, by decide,
   (updateOrderStatus_transition_guards exConfirmedOrder "cancelled" none 0
     (by decide) (by decide)).2.2.1 ⟨rfl, by decide⟩⟩

/-- C4 counterexample: the claim says updates fail when the current
status is `cancelled`; on the code, updating a cancelled order to
`processing` succeeds. -/
theorem updateOrderStatus_from_cancelled_succeeds :
    exceptOk (updateOrderStatus exCancelledOrder (some "processing") none 0) = true := by
  decide

/-- C6: admin markOrderAsPaid fails with a 400 error on a cancelled
order and on an already-paid order; otherwise it succeeds and marks the
order paid with a timestamp, and additionally delivered with status
`delivered`. -/
theorem markOrderAsPaid_guards (o : Order) (notes : Option String) (now : Nat) :
    ((o.status = "cancelled" ∨ o.isCancelled = true) →
      markOrderAsPaid o "admin" notes now =
        .error (.app ⟨"This order is cancelled and cannot be marked as paid.", 400⟩)) ∧
    (¬(o.status = "cancelled" ∨ o.isCancelled = true) → o.isPaid = true →
      markOrderAsPaid o "admin" notes now =
        .error (.app ⟨"Order is already marked as paid.", 400⟩)) ∧
    (¬(o.status = "cancelled" ∨ o.isCancelled = true) → o.isPaid = false →
      ValidOrder o →
      ∃ o', markOrderAsPaid o "admin" notes now = .ok o' ∧
        o'.isPaid = true ∧ o'.paidAt = some now ∧ o'.isDelivered = true ∧
        o'.status = "delivered") := by
  unfold markOrderAsPaid
  rw [if_neg (by simp)]
  refine ⟨?_, ?_, ?_⟩
  · intro hcan; rw [if_pos hcan]
  · intro hcan hpaid; rw [if_neg hcan, if_pos hpaid]
  · intro hcan hpaid hv
    rw [if_neg hcan, if_neg (by simp [hpaid])]
    obtain ⟨h1, h2, h3, h4, h5, h6, h7⟩ := hv
    cases notes with
    | none =>
        have hv2 : ValidOrder
            { o with isPaid := true, paidAt := some now, isDelivered := true,
                     status := "delivered", paymentStatus := "paid" } :=
          ⟨h1, h2, h3, h4, show ("paid" : String) ∈ paymentStatusEnum by decide,
           show ("delivered" : String) ∈ statusEnum by decide, h7⟩
        exact ⟨_, saveOrder_ok_of_valid hv2, rfl, rfl, rfl, rfl⟩
    | some n =>
        have hv2 : ValidOrder
            { o with isPaid := true, paidAt := some now, isDelivered := true,
                     status := "delivered", paymentStatus := "paid",
                     notes := some n } :=
          ⟨h1, h2, h3, h4, show ("paid" : String) ∈ paymentStatusEnum by decide,
           show ("delivered" : String) ∈ statusEnum by decide, h7⟩
        exact ⟨_, saveOrder_ok_of_valid hv2, rfl, rfl, rfl, rfl⟩

/-- Witness for C6: marking the fresh valid order `exOrderBase` as paid
succeeds and sets paid, paidAt, delivered and status `delivered`. -/
theorem markOrderAsPaid_guards_witness :
    (¬(exOrderBase.status = "cancelled" ∨ exOrderBase.isCancelled = true)) ∧
    exOrderBase.isPaid = false ∧ ValidOrder exOrderBase ∧
    (∃ o', markOrderAsPaid exOrderBase "admin" none 0 = .ok o' ∧
      o'.isPaid = true ∧ o'.paidAt = some 0 ∧ o'.isDelivered = true ∧
      o'.status = "delivered") :=
  ⟨by decide, rfl, by decide,
   (markOrderAsPaid_guards exOrderBase none 0).2.2 (by decide) rfl (by decide)⟩

/-- Witness for C10: the successful card conversion of `exCardCart`
yields exactly the built order data, whose paymentStatus is `pending`
while isPaid is true. -/
theorem converted_order_pending_paymentStatus_witness :
    ((convertToOrderRun exCardCart [] {} (some exAddr) (some "card") 0).2 =
      .ok (buildOrderData exCardCart exAddr "card" {} 0)) ∧
    (buildOrderData exCardCart exAddr "card" {} 0).paymentStatus = "pending" ∧
    (buildOrderData exCardCart exAddr "card" {} 0).isPaid = true :=
  ⟨by decide,
   (converted_order_pending_paymentStatus exCardCart [] {} (some exAddr)
     (some "card") 0 (buildOrderData exCardCart exAddr "card" {} 0) (by decide)).1.1,
   (converted_order_pending_paymentStatus exCardCart [] {} (some exAddr)
     (some "card") 0 (buildOrderData exCardCart exAddr "card" {} 0) (by decide)).1.2⟩

theorem find?_singleton {α : Type} (p : α → Bool) (x : α) :
    List.find? p [x] = if p x then some x else none := by
  cases hp : p x <;> simp [List.find?, hp]

theorem validOrder_cancelUpdate {o : Order} (hv : ValidOrder o) (now : Nat) :
    ValidOrder { o with status := "cancelled", isCancelled := true,
                        cancelledAt := some now } := by
  obtain ⟨h1, h2, h3, h4, h5, h6, h7⟩ := hv
  exact ⟨h1, h2, h3, h4, h5, show ("cancelled" : String) ∈ statusEnum by decide, h7⟩

theorem cancelMyOrder_found (oid : String) (o : Order) (uid : Nat) (now : Nat)
    (hlen : oid.length = 24) (huser : o.user = some uid) :
    cancelMyOrder [(oid, o)] (.auth uid "user") none oid now =
      (if o.status = "cancelled" ∨ o.isCancelled = true then
        .error (.app ⟨"This order has already been cancelled.", 400⟩)
      else if o.status = "delivered" ∨ o.isDelivered = true then
        .error (.app ⟨"Delivered orders cannot be cancelled.", 400⟩)
      else if o.status = "shipped" ∧ o.paymentStatus = "paid" then
        .error (.app ⟨"Shipped and paid orders cannot be cancelled.", 400⟩)
      else saveOrder { o with status := "cancelled", isCancelled := true,
                              cancelledAt := some now }) := by
  unfold cancelMyOrder buildAccessQuery
  rw [if_neg (by simp [hlen])]
  dsimp only
  rw [if_neg (show ¬(("user" : String) = "admin") by decide)]
  dsimp only
  rw [find?_singleton, if_pos (by simp [matchesQuery, huser])]

theorem markOrderAsCancelled_ok (o : Order) (now : Nat)
    (hvalid : ValidOrder o) (hnd : o.status ≠ "delivered")
    (hnc : ¬(o.status = "cancelled" ∨ o.isCancelled = true)) :
    exceptOk (markOrderAsCancelled o "admin" none now) = true := by
  unfold markOrderAsCancelled
  rw [if_neg (by simp), if_neg hnd, if_neg hnc]
  show exceptOk (saveOrder { o with status := "cancelled", isCancelled := true,
                                    cancelledAt := some now }) = true
  rw [saveOrder_ok_of_valid (validOrder_cancelUpdate hvalid now)]
  rfl

/-- C5 (amended): customer cancellation of an own order fails exactly
when the order is already cancelled, delivered, or shipped with
paymentStatus `paid`; it does not apply the confirmed/shipped/delivered
block of the status-update operation.  Relative to the admin
mark-as-cancelled operation it is strictly more restrictive: whenever
customer cancellation succeeds, admin cancellation of the same order
succeeds, and on a shipped-and-paid order only the admin one does. -/
theorem cancelMyOrder_guards (oid : String) (o : Order) (uid : Nat) (now : Nat)
    (hlen : oid.length = 24) (huser : o.user = some uid)
    (hvalid : ValidOrder o) :
    (exceptOk (cancelMyOrder [(oid, o)] (.auth uid "user") none oid now) = true ↔
      ¬(o.status = "cancelled" ∨ o.isCancelled = true ∨ o.status = "delivered" ∨
        o.isDelivered = true ∨ (o.status = "shipped" ∧ o.paymentStatus = "paid"))) ∧
    (exceptOk (cancelMyOrder [(oid, o)] (.auth uid "user") none oid now) = true →
      exceptOk (markOrderAsCancelled o "admin" none now) = true) ∧
    ((o.status = "shipped" ∧ o.paymentStatus = "paid" ∧ o.isCancelled = false ∧
        o.isDelivered = false) →
      (exceptOk (cancelMyOrder [(oid, o)] (.auth uid "user") none oid now) = false ∧
       exceptOk (markOrderAsCancelled o "admin" none now) = true)) := by
  rw [cancelMyOrder_found oid o uid now hlen huser]
  have hiff : exceptOk
      (if o.status = "cancelled" ∨ o.isCancelled = true then
        (.error (.app ⟨"This order has already been cancelled.", 400⟩) : Except Failure Order)
      else if o.status = "delivered" ∨ o.isDelivered = true then
        .error (.app ⟨"Delivered orders cannot be cancelled.", 400⟩)
      else if o.status = "shipped" ∧ o.paymentStatus = "paid" then
        .error (.app ⟨"Shipped and paid orders cannot be cancelled.", 400⟩)
      else saveOrder { o with status := "cancelled", isCancelled := true,
                              cancelledAt := some now }) = true ↔
      ¬(o.status = "cancelled" ∨ o.isCancelled = true ∨ o.status = "delivered" ∨
        o.isDelivered = true ∨ (o.status = "shipped" ∧ o.paymentStatus = "paid")) := by
    by_cases g1 : o.status = "cancelled" ∨ o.isCancelled = true
    · rw [if_pos g1]
      exact iff_of_false (by simp [exceptOk])
        (fun hh => hh (g1.elim Or.inl (fun b => Or.inr (Or.inl b))))
    · rw [if_neg g1]
      by_cases g2 : o.status = "delivered" ∨ o.isDelivered = true
      · rw [if_pos g2]
        exact iff_of_false (by simp [exceptOk])
          (fun hh => hh (g2.elim (fun x => Or.inr (Or.inr (Or.inl x)))
            (fun x => Or.inr (Or.inr (Or.inr (Or.inl x))))))
      · rw [if_neg g2]
        by_cases g3 : o.status = "shipped" ∧ o.paymentStatus = "paid"
        · rw [if_pos g3]
          exact iff_of_false (by simp [exceptOk])
            (fun hh => hh (Or.inr (Or.inr (Or.inr (Or.inr g3)))))
        · rw [if_neg g3, saveOrder_ok_of_valid (validOrder_cancelUpdate hvalid now)]
          refine iff_of_true rfl ?_
          intro h
          rcases h with h | h | h | h | h
          · exact g1 (Or.inl h)
          · exact g1 (Or.inr h)
          · exact g2 (Or.inl h)
          · exact g2 (Or.inr h)
          · exact g3 h
  refine ⟨hiff, ?_, ?_⟩
  · intro hs
    have hng := hiff.mp hs
    push_neg at hng
    exact markOrderAsCancelled_ok o now hvalid hng.2.2.1
      (fun h => h.elim hng.1 hng.2.1)
  · rintro ⟨hs, hp, hnc, hnd⟩
    constructor
    · have hne : ¬(exceptOk
          (if o.status = "cancelled" ∨ o.isCancelled = true then
            (.error (.app ⟨"This order has already been cancelled.", 400⟩) : Except Failure Order)
          else if o.status = "delivered" ∨ o.isDelivered = true then
            .error (.app ⟨"Delivered orders cannot be cancelled.", 400⟩)
          else if o.status = "shipped" ∧ o.paymentStatus = "paid" then
            .error (.app ⟨"Shipped and paid orders cannot be cancelled.", 400⟩)
          else saveOrder { o with status := "cancelled", isCancelled := true,
                                  cancelledAt := some now }) = true) :=
        fun hh => (hiff.mp hh) (Or.inr (Or.inr (Or.inr (Or.inr ⟨hs, hp⟩))))
      exact Bool.eq_false_iff.mpr hne
    · exact markOrderAsCancelled_ok o now hvalid
        (by rw [hs]; decide)
        (fun h => h.elim
          (fun hc => absurd (hs ▸ hc : ("shipped" : String) = "cancelled") (by decide))
          (fun hb => absurd (hnc ▸ hb : (false : Bool) = true) (by decide)))

/-- Witness for C5 at a concrete input: a shipped-and-paid order of
user 7 cannot be cancelled by the customer, while the admin
mark-as-cancelled succeeds on it. -/
theorem cancelMyOrder_guards_witness :
    (exOid.length = 24) ∧ (exShippedPaidOrder.user = some 7) ∧
    ValidOrder exShippedPaidOrder ∧
    (exceptOk (cancelMyOrder [(exOid, exShippedPaidOrder)] (.auth 7 "user")
        none exOid 0) = false ∧
     exceptOk (markOrderAsCancelled exShippedPaidOrder "admin" none 0) = true) :=
  ⟨by decide, rfl, by decide,
   (cancelMyOrder_guards exOid exShippedPaidOrder 7 0 (by decide) rfl
     (by decide)).2.2 ⟨rfl, rfl, rfl, rfl⟩⟩

/-- C5 counterexample: the claim says customer cancellation applies the
general block on cancelling confirmed orders and succeeds only where
admin cancellation does; on the code, the customer cancels their
confirmed order successfully while the admin status-update cancellation
of the same order fails. -/
theorem cancelMyOrder_confirmed_succeeds :
    exceptOk (cancelMyOrder [(exOid, exConfirmedOrder)] (.auth 7 "user")
        none exOid 0) = true ∧
    exceptOk (updateOrderStatus exConfirmedOrder (some "cancelled") none 0) = false := by
  constructor <;> decide

/-- C9: for a guest order stored with lowercase guest email `ge` (and no
user reference), the per-order read returns it to an anonymous caller
exactly when the supplied email lowercases to `ge`; any other email and
any unrelated authenticated non-admin get the 404 error; an admin gets
the order; and a caller with neither identity nor email gets the 400
error, not a 401. -/
theorem guest_order_access (oid : String) (o : Order) (ge : String)
    (hlen : oid.length = 24) (hg : o.isGuest = true)
    (he : o.guestEmail = some ge) (hu : o.user = none) :
    (∀ e r, getMyOrderById [(oid, o)] .anon (some e) oid = .ok r →
        r = o ∧ strToLower e = ge) ∧
    (∀ e, strToLower e = ge →
        getMyOrderById [(oid, o)] .anon (some e) oid = .ok o) ∧
    (∀ e, strToLower e ≠ ge →
        getMyOrderById [(oid, o)] .anon (some e) oid =
          .error (.app ⟨"No order found with that ID for your account.", 404⟩)) ∧
    (∀ uid role, role ≠ "admin" →
        getMyOrderById [(oid, o)] (.auth uid role) none oid =
          .error (.app ⟨"No order found with that ID for your account.", 404⟩)) ∧
    (∀ uid, getMyOrderById [(oid, o)] (.auth uid "admin") none oid = .ok o) ∧
    (getMyOrderById [(oid, o)] .anon none oid =
        .error (.app ⟨"Please provide your email to view this order.", 400⟩)) := by
  refine ⟨?_, ?_, ?_, ?_, ?_, ?_⟩
  · intro e r hr
    unfold getMyOrderById buildAccessQuery at hr
    rw [if_neg (by simp [hlen])] at hr
    dsimp only at hr
    rw [find?_singleton] at hr
    by_cases hm : matchesQuery ⟨oid, none, some (strToLower e), some true⟩ (oid, o) = true
    · rw [if_pos hm] at hr
      have hr2 : o = r := by simpa using hr
      have hee : ge = strToLower e := by
        simp [matchesQuery, he, hg] at hm
        exact hm
      exact ⟨hr2.symm, hee.symm⟩
    · rw [if_neg hm] at hr
      exact absurd hr (by simp)
  · intro e hee
    unfold getMyOrderById buildAccessQuery
    rw [if_neg (by simp [hlen])]
    dsimp only
    rw [find?_singleton, if_pos (by simp [matchesQuery, he, hg, hee])]
  · intro e hee
    unfold getMyOrderById buildAccessQuery
    rw [if_neg (by simp [hlen])]
    dsimp only
    rw [find?_singleton,
        if_neg (by simp [matchesQuery, he, hg]; exact fun hh => hee hh.symm)]
  · intro uid role hrole
    unfold getMyOrderById buildAccessQuery
    rw [if_neg (by simp [hlen])]
    dsimp only
    rw [if_neg hrole]
    dsimp only
    rw [find?_singleton, if_neg (by simp [matchesQuery, hu])]
  · intro uid
    unfold getMyOrderById buildAccessQuery
    rw [if_neg (by simp [hlen])]
    dsimp only
    rw [if_pos rfl]
    dsimp only
    rw [find?_singleton, if_pos (by simp [matchesQuery])]
  · unfold getMyOrderById buildAccessQuery
    rw [if_neg (by simp [hlen])]

/-- Witness for C9 at a concrete guest order with email a@b.com: the
same email in different case retrieves it, a different email and an
unrelated user get 404, an admin gets it, and no identity at all gets
the 400 error. -/
theorem guest_order_access_witness :
    getMyOrderById [(exGOid, exGuestOrder)] .anon (some "A@B.com") exGOid =
      .ok exGuestOrder ∧
    getMyOrderById [(exGOid, exGuestOrder)] .anon (some "x@y.com") exGOid =
      .error (.app ⟨"No order found with that ID for your account.", 404⟩) ∧
    getMyOrderById [(exGOid, exGuestOrder)] (.auth 9 "user") none exGOid =
      .error (.app ⟨"No order found with that ID for your account.", 404⟩) ∧
    getMyOrderById [(exGOid, exGuestOrder)] (.auth 9 "admin") none exGOid =
      .ok exGuestOrder ∧
    getMyOrderById [(exGOid, exGuestOrder)] .anon none exGOid =
      .error (.app ⟨"Please provide your email to view this order.", 400⟩) :=
  ⟨(guest_order_access exGOid exGuestOrder "a@b.com" (by decide) rfl rfl rfl).2.1
      "A@B.com" (by decide),
   (guest_order_access exGOid exGuestOrder "a@b.com" (by decide) rfl rfl rfl).2.2.1
      "x@y.com" (by decide),
   (guest_order_access exGOid exGuestOrder "a@b.com" (by decide) rfl rfl rfl).2.2.2.1
      9 "user" (by decide),
   (guest_order_access exGOid exGuestOrder "a@b.com" (by decide) rfl rfl rfl).2.2.2.2.1 9,
   (guest_order_access exGOid exGuestOrder "a@b.com" (by decide) rfl rfl rfl).2.2.2.2.2⟩

end ECom
